import Mathlib

/-!
Shallow embedding of the Village Grievance backend:
the Express route handlers (src/unnamed/part_000) and the
drizzle/zod schema (src/Frontend/VillageGrievanceBlock/shared/schema.ts).
The storage layer (./storage) is not part of the sources; its operations
are modelled from the spec's Persistence Gateway contract where needed.
Machine time is modelled as milliseconds since epoch (a Nat); JavaScript
request values are modelled by the JSVal type with JS truthiness.
-/

namespace VGB

/-- A JavaScript request-body value, as delivered by JSON parsing:
a number, a string, a boolean, or null. Used where the handlers apply
JS truthiness or typeof checks to a raw body field. -/
inductive JSVal where
  | num (q : ℚ)
  | str (s : String)
  | bool (b : Bool)
  | null
deriving DecidableEq, Repr

/-- JS truthiness: 0, "", false and null are falsy. -/
def JSVal.truthy : JSVal → Bool
  | .num q => q != 0
  | .str s => s != ""
  | .bool b => b
  | .null => false

/-- JS typeof v === "number". -/
def JSVal.isNumber : JSVal → Bool
  | .num _ => true
  | _ => false

/-- One millisecond-count day, for Date arithmetic (setDate(getDate()+7)). -/
def dayMs : Nat := 86400000

/-- users table (schema.ts lines 7-17). -/
structure User where
  id : String
  username : String
  password : String
  fullName : String
  role : String
  mobileNumber : String
  email : Option String
  villageName : Option String
  createdAt : Nat
deriving DecidableEq, Repr

/-- grievances table (schema.ts lines 19-43). resolutionTimeline is carried
as a rational because the accept handler passes the raw JS number through. -/
structure Grievance where
  id : String
  grievanceNumber : String
  userId : String
  title : String
  category : String
  description : String
  villageName : String
  status : String
  priority : String
  evidenceFiles : Option (List String)
  voiceRecordingUrl : Option String
  voiceTranscription : Option String
  assignedTo : Option String
  resolutionTimeline : Option ℚ
  dueDate : Option Nat
  resolvedAt : Option Nat
  resolutionNotes : Option String
  resolutionEvidence : Option (List String)
  verificationDeadline : Option Nat
  isEscalated : Bool
  escalatedAt : Option Nat
  createdAt : Nat
  updatedAt : Nat
deriving DecidableEq, Repr

/-- verifications table (schema.ts lines 45-54). -/
structure Verification where
  id : String
  grievanceId : String
  userId : String
  verificationType : String
  status : String
  comments : Option String
  evidenceFiles : Option (List String)
  createdAt : Nat
deriving DecidableEq, Repr

/-- The persistent store: the tables the modelled handlers touch, plus a
counter used to generate fresh opaque ids (gen_random_uuid in the schema). -/
structure Store where
  users : List User
  grievances : List Grievance
  verifications : List Verification
  nextId : Nat
deriving DecidableEq, Repr

/-- Fields an insertUserSchema-shaped input carries (schema.ts lines 102-105:
the users shape minus id and createdAt). -/
structure InsertUser where
  username : String
  password : String
  fullName : String
  role : String
  mobileNumber : String
  email : Option String
  villageName : Option String
deriving DecidableEq, Repr

/-- Modelled from the spec: Persistence Gateway getUserByUsername(name) →
User | absent. -/
def getUserByUsername (s : Store) (username : String) : Option User :=
  s.users.find? (fun u => u.username == username)

/-- Modelled from the spec: Persistence Gateway createUser(fields) → User;
a fresh opaque id is generated and the row persisted. -/
def createUser (s : Store) (input : InsertUser) (now : Nat) : User × Store :=
  let u : User :=
    { id := "user-" ++ toString s.nextId
      username := input.username
      password := input.password
      fullName := input.fullName
      role := input.role
      mobileNumber := input.mobileNumber
      email := input.email
      villageName := input.villageName
      createdAt := now }
  (u, { s with users := s.users ++ [u], nextId := s.nextId + 1 })

/-- Modelled from the spec: Persistence Gateway getGrievance(id) →
Grievance | absent. -/
def getGrievance (s : Store) (id : String) : Option Grievance :=
  s.grievances.find? (fun g => g.id == id)

/-- Modelled from the spec: Persistence Gateway getAllGrievances() →
ordered sequence of Grievance. -/
def getAllGrievances (s : Store) : List Grievance :=
  s.grievances

/-- The extra-field updates object assembled by the PATCH status handler
(part_000 lines 124-134) and passed to updateGrievanceStatus. A `none`
field is absent from the object. -/
structure GrievanceUpdates where
  resolutionNotes : Option String := none
  resolutionEvidence : Option (List String) := none
  resolvedAt : Option Nat := none
  verificationDeadline : Option Nat := none
  status : Option String := none
deriving DecidableEq, Repr

/-- Override an optional stored field with an update field when present. -/
def ov {α : Type} (upd old : Option α) : Option α :=
  match upd with
  | some v => some v
  | none => old

/-- Merge an updates object into a grievance row (fields present in the
updates object overwrite the stored ones). -/
def applyUpdates (g : Grievance) (u : GrievanceUpdates) : Grievance :=
  { g with
    resolutionNotes := ov u.resolutionNotes g.resolutionNotes
    resolutionEvidence := ov u.resolutionEvidence g.resolutionEvidence
    resolvedAt := ov u.resolvedAt g.resolvedAt
    verificationDeadline := ov u.verificationDeadline g.verificationDeadline }

/-- Replace the grievance row with the given id by the given row. -/
def updatedStore (s : Store) (id : String) (g' : Grievance) : Store :=
  { s with grievances := s.grievances.map (fun x => if x.id == id then g' else x) }

/-- Modelled from the spec: Persistence Gateway
updateGrievanceStatus(id, status, extraFields) → Grievance | absent;
sets the status, merges the extra fields, persists, returns the updated row. -/
def updateGrievanceStatus (s : Store) (id status : String)
    (u : GrievanceUpdates) : Option (Grievance × Store) :=
  match getGrievance s id with
  | none => none
  | some g =>
      let g' := { applyUpdates g u with status := status }
      some (g', updatedStore s id g')

/-- Modelled from the spec: Persistence Gateway
acceptGrievance(id, officerId, timelineDays) → Grievance | absent; sets
assignedTo, resolutionTimeline and status in_progress on the row. -/
def acceptGrievance (s : Store) (id officerId : String) (timeline : ℚ) :
    Option (Grievance × Store) :=
  match getGrievance s id with
  | none => none
  | some g =>
      let g' := { g with
        assignedTo := some officerId
        resolutionTimeline := some timeline
        status := "in_progress" }
      some (g', updatedStore s id g')

/-- The validated grievance-creation payload: the grievances shape minus the
fields omitted by insertGrievanceSchema (schema.ts lines 107-118). -/
structure InsertGrievance where
  title : String
  category : String
  description : String
  villageName : String
  priority : Option String
  evidenceFiles : Option (List String)
  voiceRecordingUrl : Option String
  voiceTranscription : Option String
  resolutionTimeline : Option ℚ
  dueDate : Option Nat
  resolutionNotes : Option String
  resolutionEvidence : Option (List String)
deriving DecidableEq, Repr

/-- A raw grievance-creation JSON body after the handler splits off
fullName/mobileNumber/email (part_000 line 49): the schema's input keys plus
the server-assigned keys a client might attempt to supply, which zod strips
because insertGrievanceSchema omits them (schema.ts lines 107-118). -/
structure RawGrievanceBody where
  title : String
  category : String
  description : String
  villageName : String
  priority : Option String := none
  evidenceFiles : Option (List String) := none
  voiceRecordingUrl : Option String := none
  voiceTranscription : Option String := none
  resolutionTimeline : Option ℚ := none
  dueDate : Option Nat := none
  resolutionNotes : Option String := none
  resolutionEvidence : Option (List String) := none
  id : Option String := none
  grievanceNumber : Option String := none
  status : Option String := none
  userId : Option String := none
  assignedTo : Option String := none
  resolvedAt : Option Nat := none
  verificationDeadline : Option Nat := none
  isEscalated : Option Bool := none
  escalatedAt : Option Nat := none
  createdAt : Option Nat := none
  updatedAt : Option Nat := none
  email : Option String := none
deriving DecidableEq, Repr

/-- The nine-value category enum of insertGrievanceSchema
(schema.ts lines 122-132). -/
def categoryEnum : List String :=
  ["Water Supply", "Road & Infrastructure", "Electricity",
   "Sanitation & Waste Management", "Healthcare", "Education",
   "Agriculture Support", "Social Welfare Schemes", "Other"]

/-- The issue paths insertGrievanceSchema collects on a body: one per
violated field constraint (schema.ts lines 119-132). -/
def grievanceIssues (b : RawGrievanceBody) : List String :=
  (if b.title.length < 10 then ["title"] else []) ++
  (if b.description.length < 50 then ["description"] else []) ++
  (if b.category ∈ categoryEnum then [] else ["category"])

/-- insertGrievanceSchema.parse (schema.ts lines 107-133): enforces
title length at least 10, description length at least 50, category in the
nine-value enum; collects one issue path per violated field; strips keys not
in the schema. -/
def insertGrievanceSchema_parse (b : RawGrievanceBody) :
    Except (List String) InsertGrievance :=
  if grievanceIssues b = [] then
    .ok
      { title := b.title
        category := b.category
        description := b.description
        villageName := b.villageName
        priority := b.priority
        evidenceFiles := b.evidenceFiles
        voiceRecordingUrl := b.voiceRecordingUrl
        voiceTranscription := b.voiceTranscription
        resolutionTimeline := b.resolutionTimeline
        dueDate := b.dueDate
        resolutionNotes := b.resolutionNotes
        resolutionEvidence := b.resolutionEvidence }
  else .error (grievanceIssues b)

/-- A verification-creation JSON body, shaped by insertVerificationSchema
(schema.ts lines 135-142): verifications shape minus id, createdAt, userId. -/
structure InsertVerificationInput where
  grievanceId : String
  verificationType : String
  status : String
  comments : Option String := none
  evidenceFiles : Option (List String) := none
deriving DecidableEq, Repr

/-- insertVerificationSchema.parse (schema.ts lines 135-142): enforces
verificationType in (verify, dispute) and status in (verified, disputed). -/
def insertVerificationSchema_parse (b : InsertVerificationInput) :
    Option InsertVerificationInput :=
  if (b.verificationType = "verify" ∨ b.verificationType = "dispute") ∧
     (b.status = "verified" ∨ b.status = "disputed") then some b
  else none

/-- Modelled from the spec: Persistence Gateway
createGrievance(validatedInput, ownerId, ownerFullName, ownerMobile) →
Grievance; assigns a fresh id and a fresh unique grievanceNumber, applies the
schema defaults (status pending, priority medium, isEscalated false), persists. -/
def createGrievance (s : Store) (d : InsertGrievance)
    (ownerId fullName mobileNumber : String) (now : Nat) : Grievance × Store :=
  let g : Grievance :=
    { id := "grv-" ++ toString s.nextId
      grievanceNumber := "GRV-" ++ toString s.nextId
      userId := ownerId
      title := d.title
      category := d.category
      description := d.description
      villageName := d.villageName
      status := "pending"
      priority := match d.priority with | some p => p | none => "medium"
      evidenceFiles := d.evidenceFiles
      voiceRecordingUrl := d.voiceRecordingUrl
      voiceTranscription := d.voiceTranscription
      assignedTo := none
      resolutionTimeline := d.resolutionTimeline
      dueDate := d.dueDate
      resolvedAt := none
      resolutionNotes := d.resolutionNotes
      resolutionEvidence := d.resolutionEvidence
      verificationDeadline := none
      isEscalated := false
      escalatedAt := none
      createdAt := now
      updatedAt := now }
  (g, { s with grievances := s.grievances ++ [g], nextId := s.nextId + 1 })

/-- Modelled from the spec: Persistence Gateway
createVerification(validatedInput, verifierId) → Verification; assigns a fresh
id, ties the row to grievanceId and verifierId, persists. -/
def createVerification (s : Store) (d : InsertVerificationInput)
    (verifierId : String) (now : Nat) : Verification × Store :=
  let v : Verification :=
    { id := "ver-" ++ toString s.nextId
      grievanceId := d.grievanceId
      userId := verifierId
      verificationType := d.verificationType
      status := d.status
      comments := d.comments
      evidenceFiles := d.evidenceFiles
      createdAt := now }
  (v, { s with verifications := s.verifications ++ [v], nextId := s.nextId + 1 })

/-- Look up a user by username, creating it with the given fields when absent
(the lazy default-identity pattern of part_000 lines 89-100 and 157-168). -/
def ensureUser (s : Store) (username : String) (mk : InsertUser) (now : Nat) :
    User × Store :=
  match getUserByUsername s username with
  | some u => (u, s)
  | none => createUser s mk now

/-- The fixed officer identity created on demand by the accept handler
(part_000 lines 91-99). -/
def officerFields : InsertUser :=
  { username := "panchayat-officer"
    password := "temp"
    fullName := "Panchayat Officer"
    mobileNumber := "+919999999999"
    email := some "officer@panchayat.gov.in"
    villageName := some "Demo Village"
    role := "official" }

/-- The fixed verifier identity created on demand by the verifications
handler (part_000 lines 159-167). -/
def verifierFields : InsertUser :=
  { username := "community-verifier"
    password := "temp"
    fullName := "Community Verifier"
    mobileNumber := "+919888888888"
    email := some "verifier@community.local"
    villageName := some "Demo Village"
    role := "citizen" }

/-- Outcome of POST /api/grievances. -/
inductive CreateResult where
  | created (g : Grievance)
  | validationError (details : List String)
  | missingIdentity
deriving DecidableEq, Repr

/-- HTTP status code of a creation outcome. -/
def CreateResult.code : CreateResult → Nat
  | .created _ => 201
  | .validationError _ => 400
  | .missingIdentity => 400

/-- POST /api/grievances (part_000 lines 47-78): splits fullName,
mobileNumber and email out of the body, parses the rest with
insertGrievanceSchema (a ZodError maps to 400 with the issue list), requires
fullName and mobileNumber, then persists via createGrievance with the
placeholder owner id. -/
def createGrievanceHandler (s : Store) (fullName mobileNumber : Option String)
    (body : RawGrievanceBody) (now : Nat) : CreateResult × Store :=
  match insertGrievanceSchema_parse body with
  | .error details => (.validationError details, s)
  | .ok validated =>
      if fullName.getD "" = "" ∨ mobileNumber.getD "" = "" then
        (.missingIdentity, s)
      else
        let r := createGrievance s validated "temp-user-id"
          (fullName.getD "") (mobileNumber.getD "") now
        (.created r.1, r.2)

/-- Outcome of POST /api/grievances/:id/accept. -/
inductive AcceptResult where
  | ok (g : Grievance)
  | badRequest
  | notFound
deriving DecidableEq, Repr

/-- HTTP status code of an accept outcome. -/
def AcceptResult.code : AcceptResult → Nat
  | .ok _ => 200
  | .badRequest => 400
  | .notFound => 404

/-- POST /api/grievances/:id/accept (part_000 lines 80-113): rejects with
400 when resolutionTimeline is falsy or not of JS number type; then looks up
or lazily creates the panchayat-officer user; then calls acceptGrievance and
maps an absent grievance to 404. -/
def acceptHandler (s : Store) (id : String) (resolutionTimeline : Option JSVal)
    (now : Nat) : AcceptResult × Store :=
  match resolutionTimeline with
  | none => (.badRequest, s)
  | some v =>
      if !v.truthy || !v.isNumber then (.badRequest, s)
      else
        match v with
        | .num q =>
            let eu := ensureUser s "panchayat-officer" officerFields now
            match acceptGrievance eu.2 id eu.1.id q with
            | none => (.notFound, eu.2)
            | some r => (.ok r.1, r.2)
        | _ => (.badRequest, s)

/-- Outcome of PATCH /api/grievances/:id/status. -/
inductive StatusResult where
  | ok (g : Grievance)
  | badRequest
  | notFound
deriving DecidableEq, Repr

/-- HTTP status code of a status-update outcome. -/
def StatusResult.code : StatusResult → Nat
  | .ok _ => 200
  | .badRequest => 400
  | .notFound => 404

/-- The updates object the PATCH status handler assembles (part_000 lines
124-134): resolutionNotes is merged when truthy (an empty string is falsy),
resolutionEvidence when present (a JS array is always truthy); a requested
"resolved" additionally stamps resolvedAt, verificationDeadline and rewrites
the status field to pending_verification. -/
def statusUpdates (st : String) (resolutionNotes : Option String)
    (resolutionEvidence : Option (List String)) (now : Nat) : GrievanceUpdates :=
  let u0 : GrievanceUpdates :=
    { resolutionNotes :=
        match resolutionNotes with
        | some n => if n = "" then none else some n
        | none => none
      resolutionEvidence := resolutionEvidence }
  if st = "resolved" then
    { u0 with
      resolvedAt := some now
      verificationDeadline := some (now + 7 * dayMs)
      status := some "pending_verification" }
  else u0

/-- PATCH /api/grievances/:id/status (part_000 lines 115-151): rejects a
falsy status with 400; merges resolutionNotes (when truthy — an empty string
is falsy) and resolutionEvidence (an array is always truthy) into the updates
object; on requested status "resolved" stamps resolvedAt := now, computes
verificationDeadline := now + 7 days and rewrites the status to
pending_verification; maps an absent grievance to 404. -/
def updateStatusHandler (s : Store) (id : String) (status : Option String)
    (resolutionNotes : Option String) (resolutionEvidence : Option (List String))
    (now : Nat) : StatusResult × Store :=
  match status with
  | none => (.badRequest, s)
  | some st =>
      if st = "" then (.badRequest, s)
      else
        match updateGrievanceStatus s id
            (if st = "resolved" then "pending_verification" else st)
            (statusUpdates st resolutionNotes resolutionEvidence now) with
        | none => (.notFound, s)
        | some r => (.ok r.1, r.2)

/-- Outcome of POST /api/verifications. -/
inductive VerifyResult where
  | created (v : Verification)
  | validationError
deriving DecidableEq, Repr

/-- HTTP status code of a verification outcome. -/
def VerifyResult.code : VerifyResult → Nat
  | .created _ => 201
  | .validationError => 400

/-- POST /api/verifications (part_000 lines 153-189): parses the body with
insertVerificationSchema; looks up or lazily creates the community-verifier
user; persists the Verification row; then, when verificationType=verify and
status=verified, sets the grievance status to resolved, and when
verificationType=dispute and status=disputed, sets it to in_progress (the
result of that update is not inspected); returns 201 with the row. -/
def verificationsHandler (s : Store) (body : InsertVerificationInput)
    (now : Nat) : VerifyResult × Store :=
  match insertVerificationSchema_parse body with
  | none => (.validationError, s)
  | some data =>
      let eu := ensureUser s "community-verifier" verifierFields now
      let cv := createVerification eu.2 data eu.1.id now
      let s3 :=
        if data.verificationType = "verify" ∧ data.status = "verified" then
          match updateGrievanceStatus cv.2 data.grievanceId "resolved" {} with
          | some r => r.2
          | none => cv.2
        else if data.verificationType = "dispute" ∧ data.status = "disputed" then
          match updateGrievanceStatus cv.2 data.grievanceId "in_progress" {} with
          | some r => r.2
          | none => cv.2
        else cv.2
      (.created cv.1, s3)

/-- GET /api/grievances (part_000 lines 8-16): returns getAllGrievances. -/
def listAllHandler (s : Store) : List Grievance :=
  getAllGrievances s

/-- GET /api/grievances/assigned (part_000 lines 18-29): filters the full
list down to status pending or in_progress. -/
def listAssignableHandler (s : Store) : List Grievance :=
  (getAllGrievances s).filter
    (fun g => g.status == "pending" || g.status == "in_progress")

/-- The row written back by a successful PATCH status request: updates merged,
then the (possibly rewritten) status set. -/
def finalStatusGrievance (g : Grievance) (st : String) (notes : Option String)
    (ev : Option (List String)) (now : Nat) : Grievance :=
  { applyUpdates g (statusUpdates st notes ev now) with
    status := if st = "resolved" then "pending_verification" else st }

lemma createUser_grievances (s : Store) (i : InsertUser) (now : Nat) :
    (createUser s i now).2.grievances = s.grievances := rfl

lemma createUser_verifications (s : Store) (i : InsertUser) (now : Nat) :
    (createUser s i now).2.verifications = s.verifications := rfl

lemma ensureUser_grievances (s : Store) (un : String) (mk : InsertUser)
    (now : Nat) : (ensureUser s un mk now).2.grievances = s.grievances := by
  unfold ensureUser
  cases h : getUserByUsername s un <;> rfl

lemma ensureUser_verifications (s : Store) (un : String) (mk : InsertUser)
    (now : Nat) : (ensureUser s un mk now).2.verifications = s.verifications := by
  unfold ensureUser
  cases h : getUserByUsername s un <;> rfl

lemma createVerification_grievances (s : Store) (d : InsertVerificationInput)
    (vid : String) (now : Nat) :
    (createVerification s d vid now).2.grievances = s.grievances := rfl

lemma createVerification_verifications (s : Store) (d : InsertVerificationInput)
    (vid : String) (now : Nat) :
    (createVerification s d vid now).2.verifications =
      s.verifications ++ [(createVerification s d vid now).1] := rfl

lemma updatedStore_verifications (s : Store) (id : String) (g' : Grievance) :
    (updatedStore s id g').verifications = s.verifications := rfl

lemma getGrievance_congr {s1 s2 : Store} (h : s1.grievances = s2.grievances)
    (id : String) : getGrievance s1 id = getGrievance s2 id := by
  simp [getGrievance, h]

lemma getGrievance_id {s : Store} {id : String} {g : Grievance}
    (h : getGrievance s id = some g) : g.id = id := by
  have := List.find?_some h
  simpa using this

lemma find?_update (l : List Grievance) (id : String) (g g' : Grievance)
    (hfind : l.find? (fun x => x.id == id) = some g) (hid : g'.id = id) :
    (l.map (fun x => if x.id == id then g' else x)).find?
      (fun x => x.id == id) = some g' := by
  have hg : g.id = id := by
    have := List.find?_some hfind
    simpa using this
  have hpf : ((fun x : Grievance => x.id == id) ∘
      (fun x => if x.id == id then g' else x)) =
      (fun x : Grievance => x.id == id) := by
    funext x
    by_cases hx : x.id = id <;> simp [hx, hid]
  rw [List.find?_map, hpf, hfind]
  simp [hg]

lemma getGrievance_updatedStore {s : Store} {id : String} {g : Grievance}
    (hg : getGrievance s id = some g) (g' : Grievance) (hid : g'.id = id) :
    getGrievance (updatedStore s id g') id = some g' := by
  simp only [getGrievance, updatedStore] at hg ⊢
  exact find?_update _ _ _ _ hg hid

lemma applyUpdates_id (g : Grievance) (u : GrievanceUpdates) :
    (applyUpdates g u).id = g.id := rfl

lemma updateGrievanceStatus_eq {s : Store} {id : String} {g : Grievance}
    (hg : getGrievance s id = some g) (st : String) (u : GrievanceUpdates) :
    updateGrievanceStatus s id st u =
      some ({ applyUpdates g u with status := st },
            updatedStore s id { applyUpdates g u with status := st }) := by
  simp [updateGrievanceStatus, hg]

lemma updateGrievanceStatus_none {s : Store} {id : String}
    (hg : getGrievance s id = none) (st : String) (u : GrievanceUpdates) :
    updateGrievanceStatus s id st u = none := by
  simp [updateGrievanceStatus, hg]

lemma updateStatusHandler_eq {s : Store} {id : String} {g : Grievance}
    (hg : getGrievance s id = some g) (st : String) (hne : st ≠ "")
    (notes : Option String) (ev : Option (List String)) (now : Nat) :
    updateStatusHandler s id (some st) notes ev now =
      (.ok (finalStatusGrievance g st notes ev now),
       updatedStore s id (finalStatusGrievance g st notes ev now)) := by
  unfold updateStatusHandler
  dsimp only
  rw [if_neg hne, updateGrievanceStatus_eq hg]
  rfl

lemma verificationsHandler_spec (s : Store) (body : InsertVerificationInput)
    (now : Nat) (g : Grievance)
    (hg : getGrievance s body.grievanceId = some g)
    (hty : body.verificationType = "verify" ∨ body.verificationType = "dispute")
    (hst : body.status = "verified" ∨ body.status = "disputed") :
    ∃ v : Verification,
      (verificationsHandler s body now).1 = .created v ∧
      (verificationsHandler s body now).2.verifications =
        s.verifications ++ [v] ∧
      v.grievanceId = body.grievanceId ∧
      v.verificationType = body.verificationType ∧
      v.status = body.status ∧
      getGrievance (verificationsHandler s body now).2 body.grievanceId =
        some { g with status :=
          if body.verificationType = "verify" ∧ body.status = "verified"
          then "resolved"
          else if body.verificationType = "dispute" ∧ body.status = "disputed"
          then "in_progress"
          else g.status } := by
  have hparse : insertVerificationSchema_parse body = some body := by
    unfold insertVerificationSchema_parse
    rw [if_pos ⟨hty, hst⟩]
  have hgid : g.id = body.grievanceId := getGrievance_id hg
  unfold verificationsHandler
  rw [hparse]
  dsimp only
  set eu := ensureUser s "community-verifier" verifierFields now with heu
  set cv := createVerification eu.2 body eu.1.id now with hcv
  have hgr2 : cv.2.grievances = s.grievances := by
    rw [hcv, createVerification_grievances, heu, ensureUser_grievances]
  have hver2 : cv.2.verifications = s.verifications ++ [cv.1] := by
    rw [hcv, createVerification_verifications]
    rw [heu, ensureUser_verifications]
  have hg2 : getGrievance cv.2 body.grievanceId = some g := by
    rw [getGrievance_congr hgr2]
    exact hg
  refine ⟨cv.1, ?_⟩
  by_cases hvv : body.verificationType = "verify" ∧ body.status = "verified"
  · rw [if_pos hvv]
    rw [updateGrievanceStatus_eq hg2]
    refine ⟨rfl, ?_, rfl, rfl, rfl, ?_⟩
    · rw [updatedStore_verifications]
      exact hver2
    · rw [if_pos hvv]
      exact getGrievance_updatedStore hg2 _ hgid
  · rw [if_neg hvv]
    by_cases hdd : body.verificationType = "dispute" ∧ body.status = "disputed"
    · rw [if_pos hdd]
      rw [updateGrievanceStatus_eq hg2]
      refine ⟨rfl, ?_, rfl, rfl, rfl, ?_⟩
      · rw [updatedStore_verifications]
        exact hver2
      · rw [if_neg hvv, if_pos hdd]
        exact getGrievance_updatedStore hg2 _ hgid
    · rw [if_neg hdd]
      refine ⟨rfl, hver2, rfl, rfl, rfl, ?_⟩
      rw [if_neg hvv, if_neg hdd]
      rw [hg2]

/-- A description of at least 50 characters, for concrete runs. -/
def sampleDesc : String :=
  "The village hand pump near the school has been broken for two weeks now."

/-- A freshly created grievance, as createGrievance persists it. -/
def g0 : Grievance :=
  { id := "g1"
    grievanceNumber := "GRV-0"
    userId := "temp-user-id"
    title := "Broken water pipeline"
    category := "Water Supply"
    description := sampleDesc
    villageName := "Demo Village"
    status := "pending"
    priority := "medium"
    evidenceFiles := none
    voiceRecordingUrl := none
    voiceTranscription := none
    assignedTo := none
    resolutionTimeline := none
    dueDate := none
    resolvedAt := none
    resolutionNotes := none
    resolutionEvidence := none
    verificationDeadline := none
    isEscalated := false
    escalatedAt := none
    createdAt := 0
    updatedAt := 0 }

/-- A store holding just the fresh grievance g0. -/
def store0 : Store :=
  { users := [], grievances := [g0], verifications := [], nextId := 1 }

/-- g0 with resolution notes already on file. -/
def g0n : Grievance := { g0 with resolutionNotes := some "earlier notes" }

/-- A store holding g0n. -/
def store0n : Store :=
  { users := [], grievances := [g0n], verifications := [], nextId := 1 }

/-- A creation body satisfying every constraint. -/
def okBody : RawGrievanceBody :=
  { title := "Broken water pipeline"
    category := "Water Supply"
    description := sampleDesc
    villageName := "Demo Village" }

/-- okBody with a title shorter than 10 characters. -/
def shortTitleBody : RawGrievanceBody := { okBody with title := "short" }

/-- okBody with a category outside the nine-value enum. -/
def badCatBody : RawGrievanceBody := { okBody with category := "Roads" }

/-- C5: grievance creation enforces title length at least 10 and description
length at least 50; a violating input is rejected with a 400 validation
error whose detail list names the offending field, and the store is
unchanged (no grievance is created). -/
theorem c5_create_validation (s : Store) (fullName mobileNumber : Option String)
    (b : RawGrievanceBody) (now : Nat)
    (hviol : b.title.length < 10 ∨ b.description.length < 50) :
    ∃ d, (createGrievanceHandler s fullName mobileNumber b now).1 =
        .validationError d ∧
      ((createGrievanceHandler s fullName mobileNumber b now).1).code = 400 ∧
      (createGrievanceHandler s fullName mobileNumber b now).2 = s ∧
      (b.title.length < 10 → "title" ∈ d) ∧
      (b.description.length < 50 → "description" ∈ d) := by
  have hne : grievanceIssues b ≠ [] := by
    rcases hviol with h | h <;> simp [grievanceIssues, h]
  have hp : insertGrievanceSchema_parse b = .error (grievanceIssues b) := by
    unfold insertGrievanceSchema_parse
    rw [if_neg hne]
  refine ⟨grievanceIssues b, ?_, ?_, ?_, ?_, ?_⟩
  · simp [createGrievanceHandler, hp]
  · simp [createGrievanceHandler, hp, CreateResult.code]
  · simp [createGrievanceHandler, hp]
  · intro h; simp [grievanceIssues, h]
  · intro h; simp [grievanceIssues, h]

/-- C5 witness: a concrete five-character title is rejected with 400,
"title" appears in the details, and the store is untouched. -/
theorem c5_create_validation_witness :
    ∃ d, (createGrievanceHandler store0 (some "A B") (some "+911234567890")
        shortTitleBody 0).1 = .validationError d ∧
      ((createGrievanceHandler store0 (some "A B") (some "+911234567890")
        shortTitleBody 0).1).code = 400 ∧
      (createGrievanceHandler store0 (some "A B") (some "+911234567890")
        shortTitleBody 0).2 = store0 ∧
      (shortTitleBody.title.length < 10 → "title" ∈ d) ∧
      (shortTitleBody.description.length < 50 → "description" ∈ d) :=
  c5_create_validation store0 (some "A B") (some "+911234567890")
    shortTitleBody 0 (Or.inl (by decide))

/-- C6: the category of a grievance-creation body must lie in the fixed
nine-value enum: any outside value is rejected with an issue naming
category, and, the other constraints being satisfied, each of the nine enum
values is individually accepted. -/
theorem c6_category_enum (b : RawGrievanceBody) :
    (b.category ∉ categoryEnum →
      ∃ d, insertGrievanceSchema_parse b = .error d ∧ "category" ∈ d) ∧
    (10 ≤ b.title.length → 50 ≤ b.description.length →
      ∀ c ∈ categoryEnum,
        ∃ v, insertGrievanceSchema_parse { b with category := c } =
          .ok v) := by
  constructor
  · intro hc
    have hne : grievanceIssues b ≠ [] := by
      simp [grievanceIssues, hc]
    refine ⟨grievanceIssues b, ?_, ?_⟩
    · unfold insertGrievanceSchema_parse
      rw [if_neg hne]
    · simp [grievanceIssues, hc]
  · intro ht hd c hcmem
    have h1 : ¬ (b.title.length < 10) := by omega
    have h2 : ¬ (b.description.length < 50) := by omega
    have hiss : grievanceIssues { b with category := c } = [] := by
      simp [grievanceIssues, h1, h2, hcmem]
    unfold insertGrievanceSchema_parse
    rw [if_pos hiss]
    exact ⟨_, rfl⟩

/-- C6 witness: the out-of-enum category "Roads" is rejected naming
category, and the enum value "Other" is accepted on the same body. -/
theorem c6_category_enum_witness :
    (∃ d, insertGrievanceSchema_parse badCatBody = .error d ∧
      "category" ∈ d) ∧
    (∃ v, insertGrievanceSchema_parse { badCatBody with category := "Other" } =
      .ok v) :=
  ⟨(c6_category_enum badCatBody).1 (by decide),
   (c6_category_enum badCatBody).2 (by decide) (by decide) "Other" (by decide)⟩

/-- C7: the assigned-grievances listing is exactly the filter of the full
listing down to status pending or in_progress, hence contains exactly those
grievances and preserves their relative order (it is a sublist of the full
listing). -/
theorem c7_list_assignable (s : Store) :
    listAssignableHandler s =
      (listAllHandler s).filter
        (fun g => g.status == "pending" || g.status == "in_progress") ∧
    (∀ g : Grievance, g ∈ listAssignableHandler s ↔
      g ∈ listAllHandler s ∧
        (g.status = "pending" ∨ g.status = "in_progress")) ∧
    List.Sublist (listAssignableHandler s) (listAllHandler s) := by
  refine ⟨rfl, ?_, List.filter_sublist _⟩
  intro g
  simp [listAssignableHandler, listAllHandler, getAllGrievances,
    List.mem_filter]

/-- The fields of a creation body that feed the validator, with every
server-assigned field cleared (id, grievanceNumber, status, userId,
assignedTo, resolvedAt, verificationDeadline, isEscalated, escalatedAt,
createdAt, updatedAt — the omit list of schema.ts lines 107-118). -/
def scrubServerFields (b : RawGrievanceBody) : RawGrievanceBody :=
  { b with
    id := none
    grievanceNumber := none
    status := none
    userId := none
    assignedTo := none
    resolvedAt := none
    verificationDeadline := none
    isEscalated := none
    escalatedAt := none
    createdAt := none
    updatedAt := none }

/-- C9: the creation validator ignores every server-assigned field a client
might supply (parsing a body equals parsing the body with those fields
cleared), and every successfully created grievance has status pending. -/
theorem c9_server_fields :
    (∀ b : RawGrievanceBody,
      insertGrievanceSchema_parse b =
        insertGrievanceSchema_parse (scrubServerFields b)) ∧
    (∀ (s : Store) (fullName mobileNumber : Option String)
        (b : RawGrievanceBody) (now : Nat) (g : Grievance) (s' : Store),
      createGrievanceHandler s fullName mobileNumber b now =
        (.created g, s') → g.status = "pending") := by
  constructor
  · intro b
    rfl
  · intro s fn mn b now g s' h
    unfold createGrievanceHandler at h
    cases hp : insertGrievanceSchema_parse b with
    | error d =>
        rw [hp] at h
        simp at h
    | ok v =>
        rw [hp] at h
        dsimp only at h
        by_cases hid : fn.getD "" = "" ∨ mn.getD "" = ""
        · rw [if_pos hid] at h
          simp at h
        · rw [if_neg hid] at h
          have h1 := congrArg Prod.fst h
          simp only [CreateResult.created.injEq] at h1
          rw [← h1]
          rfl

/-- C9 witness: a concrete successful creation yields status pending. -/
theorem c9_server_fields_witness :
    ((createGrievance store0
      { title := okBody.title
        category := okBody.category
        description := okBody.description
        villageName := okBody.villageName
        priority := none
        evidenceFiles := none
        voiceRecordingUrl := none
        voiceTranscription := none
        resolutionTimeline := none
        dueDate := none
        resolutionNotes := none
        resolutionEvidence := none }
      "temp-user-id" "A B" "+911234567890" 5).1).status = "pending" :=
  c9_server_fields.2 store0 (some "A B") (some "+911234567890") okBody 5 _ _
    rfl

lemma acceptHandler_ok {s : Store} {id : String} {g : Grievance}
    (hg : getGrievance s id = some g) (q : ℚ) (hq : q ≠ 0) (now : Nat) :
    acceptHandler s id (some (.num q)) now =
      (.ok { g with
          assignedTo :=
            some (ensureUser s "panchayat-officer" officerFields now).1.id
          resolutionTimeline := some q
          status := "in_progress" },
       updatedStore (ensureUser s "panchayat-officer" officerFields now).2 id
         { g with
           assignedTo :=
             some (ensureUser s "panchayat-officer" officerFields now).1.id
           resolutionTimeline := some q
           status := "in_progress" }) := by
  have hg1 : getGrievance
      (ensureUser s "panchayat-officer" officerFields now).2 id = some g := by
    rw [getGrievance_congr (ensureUser_grievances s _ _ now)]
    exact hg
  simp [acceptHandler, JSVal.truthy, JSVal.isNumber, hq, acceptGrievance, hg1]

lemma acceptHandler_notFound {s : Store} {id : String}
    (hg : getGrievance s id = none) (q : ℚ) (hq : q ≠ 0) (now : Nat) :
    acceptHandler s id (some (.num q)) now =
      (.notFound, (ensureUser s "panchayat-officer" officerFields now).2) := by
  have hg1 : getGrievance
      (ensureUser s "panchayat-officer" officerFields now).2 id = none := by
    rw [getGrievance_congr (ensureUser_grievances s _ _ now)]
    exact hg
  simp [acceptHandler, JSVal.truthy, JSVal.isNumber, hq, acceptGrievance, hg1]

/-- C4 (amended): the accept guard rejects with 400 exactly the requests
whose resolutionTimeline is missing, JS-falsy (0) or not of JS number type
— a nonzero number that is negative or fractional passes it; a rejected
request leaves the store untouched; when a nonzero number is supplied,
a nonexistent id yields 404 and an existing grievance is returned with
assignedTo set, resolutionTimeline set to the supplied number, and status
in_progress, regardless of its previous status. -/
theorem c4_accept_guard_amended (s : Store) (id : String) (rt : Option JSVal)
    (now : Nat) :
    ((acceptHandler s id rt now).1 = .badRequest ↔
      ∀ v, rt = some v → (v.truthy && v.isNumber) = false) ∧
    ((acceptHandler s id rt now).1 = .badRequest →
      (acceptHandler s id rt now).2 = s) ∧
    (∀ q : ℚ, rt = some (.num q) → q ≠ 0 →
      (getGrievance s id = none →
        (acceptHandler s id rt now).1 = .notFound) ∧
      (∀ g, getGrievance s id = some g →
        (acceptHandler s id rt now).1 =
          .ok { g with
            assignedTo :=
              some (ensureUser s "panchayat-officer" officerFields now).1.id
            resolutionTimeline := some q
            status := "in_progress" })) := by
  refine ⟨?_, ?_, ?_⟩
  · cases rt with
    | none => simp [acceptHandler]
    | some v =>
        cases v with
        | num q =>
            by_cases hq : q = 0
            · subst hq
              simp [acceptHandler, JSVal.truthy, JSVal.isNumber]
            · rcases hgg : getGrievance s id with _ | g
              · rw [acceptHandler_notFound hgg q hq now]
                simp [JSVal.truthy, JSVal.isNumber, hq]
              · rw [acceptHandler_ok hgg q hq now]
                simp [JSVal.truthy, JSVal.isNumber, hq]
        | str t => simp [acceptHandler, JSVal.truthy, JSVal.isNumber]
        | bool b => simp [acceptHandler, JSVal.truthy, JSVal.isNumber]
        | null => simp [acceptHandler, JSVal.truthy, JSVal.isNumber]
  · intro hbad
    cases rt with
    | none => rfl
    | some v =>
        cases v with
        | num q =>
            by_cases hq : q = 0
            · subst hq
              rfl
            · rcases hgg : getGrievance s id with _ | g
              · rw [acceptHandler_notFound hgg q hq now] at hbad
                simp at hbad
              · rw [acceptHandler_ok hgg q hq now] at hbad
                simp at hbad
        | str t => simp [acceptHandler, JSVal.truthy, JSVal.isNumber]
        | bool b =>
            cases b with
            | false => rfl
            | true => rfl
        | null => rfl
  · intro q hrt hq
    subst hrt
    constructor
    · intro hgg
      rw [acceptHandler_notFound hgg q hq now]
    · intro g hgg
      rw [acceptHandler_ok hgg q hq now]

/-- C4 counterexample: resolutionTimeline = -3 is not a positive integer,
yet the request is not rejected: it reaches persistence and stores -3,
returning 200 with the grievance accepted. -/
theorem c4_negative_timeline_counterexample :
    (acceptHandler store0 "g1" (some (JSVal.num (-3))) 0).1 =
      AcceptResult.ok { g0 with
        assignedTo := some "user-1"
        resolutionTimeline := some (-3)
        status := "in_progress" } ∧
    ((acceptHandler store0 "g1" (some (JSVal.num (-3))) 0).1).code = 200 ∧
    (acceptHandler store0 "g1" (some (JSVal.num (-3))) 0).1 ≠
      AcceptResult.badRequest := by
  refine ⟨by rfl, by rfl, by decide⟩

/-- C4 witness: on a store containing grievance g1, timeline 7 is accepted,
and on an empty-grievance store the same request yields 404. -/
theorem c4_accept_guard_amended_witness :
    (acceptHandler store0 "g1" (some (JSVal.num 7)) 0).1 =
      AcceptResult.ok { g0 with
        assignedTo :=
          some (ensureUser store0 "panchayat-officer" officerFields 0).1.id
        resolutionTimeline := some 7
        status := "in_progress" } :=
  ((c4_accept_guard_amended store0 "g1" (some (JSVal.num 7)) 0).2.2 7 rfl
    (by decide)).2 g0 (by rfl)

/-- C8 (amended): for every existing grievance, every requested status that
is non-empty and different from "resolved" is written through verbatim with
no transition validation, whatever the current status; a missing or empty
(JS-falsy) requested status is instead rejected with 400 and nothing is
written. -/
theorem c8_verbatim_status_amended (s : Store) (id st : String)
    (notes : Option String) (ev : Option (List String)) (now : Nat)
    (g : Grievance) (hg : getGrievance s id = some g) (hne : st ≠ "")
    (hnr : st ≠ "resolved") :
    ∃ g', (updateStatusHandler s id (some st) notes ev now).1 = .ok g' ∧
      g'.status = st ∧
      getGrievance (updateStatusHandler s id (some st) notes ev now).2 id =
        some g' := by
  rw [updateStatusHandler_eq hg st hne notes ev now]
  refine ⟨finalStatusGrievance g st notes ev now, rfl, ?_, ?_⟩
  · simp [finalStatusGrievance, hnr]
  · refine getGrievance_updatedStore hg
      (finalStatusGrievance g st notes ev now) ?_
    have h2 := getGrievance_id hg
    exact h2

/-- C8 witness: an arbitrary unknown status string is written through
verbatim on the pending grievance g1. -/
theorem c8_verbatim_status_amended_witness :
    ∃ g', (updateStatusHandler store0 "g1" (some "totally_new_state")
        none none 0).1 = .ok g' ∧
      g'.status = "totally_new_state" ∧
      getGrievance (updateStatusHandler store0 "g1"
        (some "totally_new_state") none none 0).2 "g1" = some g' :=
  c8_verbatim_status_amended store0 "g1" "totally_new_state" none none 0 g0
    (by rfl) (by decide) (by decide)

/-- C8 counterexample: the empty string is a requested status other than
"resolved", but it is not written through: the handler rejects it with 400
and the stored status stays pending. -/
theorem c8_empty_status_counterexample :
    (updateStatusHandler store0 "g1" (some "") none none 0).1 =
      StatusResult.badRequest ∧
    ((updateStatusHandler store0 "g1" (some "") none none 0).1).code = 400 ∧
    getGrievance (updateStatusHandler store0 "g1" (some "") none none 0).2
      "g1" = some g0 ∧
    g0.status = "pending" := by
  refine ⟨by rfl, by rfl, by rfl, by rfl⟩

/-- C2 (amended): updateStatus with requested status "resolved" on an
existing grievance stores status pending_verification (never "resolved"),
sets resolvedAt to the current time and verificationDeadline to exactly
resolvedAt plus 7 days; any supplied resolutionEvidence and any supplied
non-empty resolutionNotes are merged into the record, while a supplied
empty-string resolutionNotes is ignored (the handler tests JS truthiness). -/
theorem c2_update_status_resolved_amended (s : Store) (id : String)
    (notes : Option String) (ev : Option (List String)) (now : Nat)
    (g : Grievance) (hg : getGrievance s id = some g) :
    ∃ g', (updateStatusHandler s id (some "resolved") notes ev now).1 =
        .ok g' ∧
      g'.status = "pending_verification" ∧
      g'.resolvedAt = some now ∧
      g'.verificationDeadline = some (now + 7 * dayMs) ∧
      (∀ n, notes = some n → n ≠ "" → g'.resolutionNotes = some n) ∧
      (∀ e, ev = some e → g'.resolutionEvidence = some e) ∧
      getGrievance
        (updateStatusHandler s id (some "resolved") notes ev now).2 id =
        some g' := by
  rw [updateStatusHandler_eq hg "resolved" (by decide) notes ev now]
  refine ⟨finalStatusGrievance g "resolved" notes ev now, rfl, ?_, ?_, ?_,
    ?_, ?_, ?_⟩
  · simp [finalStatusGrievance]
  · simp [finalStatusGrievance, applyUpdates, statusUpdates, ov]
  · simp [finalStatusGrievance, applyUpdates, statusUpdates, ov]
  · intro n hn hne
    subst hn
    simp [finalStatusGrievance, applyUpdates, statusUpdates, ov, hne]
  · intro e he
    subst he
    simp [finalStatusGrievance, applyUpdates, statusUpdates, ov]
  · refine getGrievance_updatedStore hg
      (finalStatusGrievance g "resolved" notes ev now) ?_
    have h2 := getGrievance_id hg
    exact h2

/-- C2 witness: a concrete resolve request with notes and evidence supplied
stores pending_verification, stamps resolvedAt = 100 and the deadline
exactly 7 days later, and merges both fields. -/
theorem c2_update_status_resolved_amended_witness :
    ∃ g', (updateStatusHandler store0 "g1" (some "resolved")
        (some "fixed the pump") (some ["photo.jpg"]) 100).1 = .ok g' ∧
      g'.status = "pending_verification" ∧
      g'.resolvedAt = some 100 ∧
      g'.verificationDeadline = some (100 + 7 * dayMs) ∧
      (∀ n, (some "fixed the pump" : Option String) = some n → n ≠ "" →
        g'.resolutionNotes = some n) ∧
      (∀ e, (some ["photo.jpg"] : Option (List String)) = some e →
        g'.resolutionEvidence = some e) ∧
      getGrievance (updateStatusHandler store0 "g1" (some "resolved")
        (some "fixed the pump") (some ["photo.jpg"]) 100).2 "g1" =
        some g' :=
  c2_update_status_resolved_amended store0 "g1" (some "fixed the pump")
    (some ["photo.jpg"]) 100 g0 (by rfl)

/-- C2 counterexample: a supplied empty-string resolutionNotes is not
merged — the previously stored notes survive the resolve request, where the
claim says any supplied notes are merged in. -/
theorem c2_empty_notes_counterexample :
    (updateStatusHandler store0n "g1" (some "resolved") (some "") none 0).1 =
      StatusResult.ok { g0n with
        status := "pending_verification"
        resolvedAt := some 0
        verificationDeadline := some (0 + 7 * dayMs) } ∧
    ({ g0n with
        status := "pending_verification"
        resolvedAt := some 0
        verificationDeadline := some (0 + 7 * dayMs) }).resolutionNotes =
      some "earlier notes" ∧
    some "earlier notes" ≠ (some "" : Option String) := by
  refine ⟨by rfl, by rfl, by decide⟩

/-- C1: recording a verification on an existing grievance always persists
the Verification row, and changes the parent grievance status exactly as
follows: verify/verified makes it resolved, dispute/disputed makes it
in_progress, and the two cross combinations leave it unchanged. -/
theorem c1_record_verification_status (s : Store)
    (body : InsertVerificationInput) (now : Nat) (g : Grievance)
    (hg : getGrievance s body.grievanceId = some g)
    (hty : body.verificationType = "verify" ∨
      body.verificationType = "dispute")
    (hst : body.status = "verified" ∨ body.status = "disputed") :
    ∃ v : Verification,
      (verificationsHandler s body now).1 = .created v ∧
      (verificationsHandler s body now).2.verifications =
        s.verifications ++ [v] ∧
      getGrievance (verificationsHandler s body now).2 body.grievanceId =
        some { g with status :=
          if body.verificationType = "verify" ∧ body.status = "verified"
          then "resolved"
          else if body.verificationType = "dispute" ∧ body.status = "disputed"
          then "in_progress"
          else g.status } := by
  obtain ⟨v, h1, h2, _, _, _, h6⟩ :=
    verificationsHandler_spec s body now g hg hty hst
  exact ⟨v, h1, h2, h6⟩

/-- A verify/verified request against g1. -/
def vBody : InsertVerificationInput :=
  { grievanceId := "g1", verificationType := "verify", status := "verified" }

/-- A dispute/disputed request against g1. -/
def dBody : InsertVerificationInput :=
  { grievanceId := "g1", verificationType := "dispute", status := "disputed" }

/-- C1 witness: a concrete verify/verified request persists its row and
resolves the pending grievance g1. -/
theorem c1_record_verification_status_witness :
    ∃ v : Verification,
      (verificationsHandler store0 vBody 0).1 = .created v ∧
      (verificationsHandler store0 vBody 0).2.verifications =
        store0.verifications ++ [v] ∧
      getGrievance (verificationsHandler store0 vBody 0).2
        vBody.grievanceId =
        some { g0 with status :=
          if vBody.verificationType = "verify" ∧ vBody.status = "verified"
          then "resolved"
          else if vBody.verificationType = "dispute" ∧
            vBody.status = "disputed"
          then "in_progress"
          else g0.status } :=
  c1_record_verification_status store0 vBody 0 g0 (by rfl) (Or.inl rfl)
    (Or.inl rfl)

/-- C10: the two status-changing verification outcomes update only the
status field of the parent grievance: resolvedAt, verificationDeadline,
assignedTo, resolutionTimeline, the resolution fields and everything else
are untouched (the updated row equals the old row with just the status
replaced). -/
theorem c10_verification_frame (s : Store) (body : InsertVerificationInput)
    (now : Nat) (g : Grievance)
    (hg : getGrievance s body.grievanceId = some g)
    (hcase : (body.verificationType = "verify" ∧ body.status = "verified") ∨
      (body.verificationType = "dispute" ∧ body.status = "disputed")) :
    ∃ g', getGrievance (verificationsHandler s body now).2
        body.grievanceId = some g' ∧
      g' = { g with status := g'.status } ∧
      g'.status = (if body.verificationType = "verify" then "resolved"
        else "in_progress") ∧
      g'.resolvedAt = g.resolvedAt ∧
      g'.verificationDeadline = g.verificationDeadline ∧
      g'.assignedTo = g.assignedTo ∧
      g'.resolutionTimeline = g.resolutionTimeline ∧
      g'.resolutionNotes = g.resolutionNotes ∧
      g'.resolutionEvidence = g.resolutionEvidence := by
  obtain ⟨v, h1, h2, h3, h4, h5, h6⟩ :=
    verificationsHandler_spec s body now g hg
      (hcase.imp And.left And.left) (hcase.imp And.right And.right)
  refine ⟨_, h6, rfl, ?_, rfl, rfl, rfl, rfl, rfl, rfl⟩
  rcases hcase with ⟨ha, hb⟩ | ⟨ha, hb⟩ <;> simp [ha, hb]

/-- C10 witness: a concrete dispute/disputed request re-opens g1 changing
only its status. -/
theorem c10_verification_frame_witness :
    ∃ g', getGrievance (verificationsHandler store0 dBody 0).2
        dBody.grievanceId = some g' ∧
      g' = { g0 with status := g'.status } ∧
      g'.status = (if dBody.verificationType = "verify" then "resolved"
        else "in_progress") ∧
      g'.resolvedAt = g0.resolvedAt ∧
      g'.verificationDeadline = g0.verificationDeadline ∧
      g'.assignedTo = g0.assignedTo ∧
      g'.resolutionTimeline = g0.resolutionTimeline ∧
      g'.resolutionNotes = g0.resolutionNotes ∧
      g'.resolutionEvidence = g0.resolutionEvidence :=
  c10_verification_frame store0 dBody 0 g0 (by rfl) (Or.inr ⟨rfl, rfl⟩)

/-- C3 (amended): the code enforces no lifecycle transition table: from any
current status, accept yields in_progress, a resolve request yields
pending_verification, a verify/verified verification yields resolved, a
dispute/disputed verification yields in_progress, and any other non-empty
requested status is written verbatim; in particular states can be skipped
and pending_verification is directly reachable by one updateStatus call. -/
theorem c3_no_transition_validation_amended (s : Store) (id : String)
    (now : Nat) (g : Grievance) (hg : getGrievance s id = some g) :
    (∀ q : ℚ, q ≠ 0 →
      ∃ g', (acceptHandler s id (some (.num q)) now).1 = .ok g' ∧
        g'.status = "in_progress") ∧
    (∀ notes ev, ∃ g',
      (updateStatusHandler s id (some "resolved") notes ev now).1 =
        .ok g' ∧ g'.status = "pending_verification") ∧
    (∀ st, st ≠ "" → st ≠ "resolved" → ∀ notes ev, ∃ g',
      (updateStatusHandler s id (some st) notes ev now).1 = .ok g' ∧
      g'.status = st) ∧
    (∀ body : InsertVerificationInput, body.grievanceId = id →
      (body.verificationType = "verify" → body.status = "verified" →
        getGrievance (verificationsHandler s body now).2 id =
          some { g with status := "resolved" }) ∧
      (body.verificationType = "dispute" → body.status = "disputed" →
        getGrievance (verificationsHandler s body now).2 id =
          some { g with status := "in_progress" })) := by
  refine ⟨?_, ?_, ?_, ?_⟩
  · intro q hq
    rw [acceptHandler_ok hg q hq now]
    exact ⟨_, rfl, rfl⟩
  · intro notes ev
    rw [updateStatusHandler_eq hg "resolved" (by decide) notes ev now]
    exact ⟨_, rfl, by simp [finalStatusGrievance]⟩
  · intro st h1 h2 notes ev
    rw [updateStatusHandler_eq hg st h1 notes ev now]
    exact ⟨_, rfl, by simp [finalStatusGrievance, h2]⟩
  · intro body hbid
    have hg' : getGrievance s body.grievanceId = some g := by
      rw [hbid]
      exact hg
    constructor
    · intro hv hs
      obtain ⟨v, _, _, _, _, _, h6⟩ :=
        verificationsHandler_spec s body now g hg' (Or.inl hv) (Or.inl hs)
      rw [hbid, if_pos ⟨hv, hs⟩] at h6
      exact h6
    · intro hd hs
      obtain ⟨v, _, _, _, _, _, h6⟩ :=
        verificationsHandler_spec s body now g hg' (Or.inr hd) (Or.inr hs)
      have hnot : ¬ (body.verificationType = "verify" ∧
          body.status = "verified") := by
        simp [hd]
      rw [hbid, if_neg hnot, if_pos ⟨hd, hs⟩] at h6
      exact h6

/-- C3 witness: concrete runs from the pending grievance g1: a resolve
request yields pending_verification, and the arbitrary status jump
"resolved_by_magic" is written verbatim. -/
theorem c3_no_transition_validation_amended_witness :
    (∃ g', (updateStatusHandler store0 "g1" (some "resolved") none none 0).1 =
      .ok g' ∧ g'.status = "pending_verification") ∧
    (∃ g', (updateStatusHandler store0 "g1" (some "in_progress")
      none none 0).1 = .ok g' ∧ g'.status = "in_progress") :=
  ⟨(c3_no_transition_validation_amended store0 "g1" 0 g0 (by rfl)).2.1
      none none,
   (c3_no_transition_validation_amended store0 "g1" 0 g0 (by rfl)).2.2.1
      "in_progress" (by decide) (by decide) none none⟩

/-- C3 counterexample: from a freshly created grievance (status pending,
never accepted), a single updateStatus call reaches pending_verification
directly, skipping in_progress and bypassing the acceptance-then-resolve
path. -/
theorem c3_skip_counterexample :
    g0.status = "pending" ∧ g0.assignedTo = none ∧
    getGrievance (updateStatusHandler store0 "g1"
      (some "pending_verification") none none 0).2 "g1" =
      some { g0 with status := "pending_verification" } :=
  ⟨rfl, rfl, by rfl⟩

end VGB
